import Mathlib

set_option maxHeartbeats 1000000
set_option maxRecDepth 4000

/-!
Verification of the Altbot event orchestrator (micr0-dev/Altbot).

This file gives a shallow embedding of the parts of the Go source that the
claims concern: the GDPR consent detector (`containsWholeWord`,
`checkAndRecordConsent` in the consent module), the rate limiter
(`RateLimiter.Increment`, `ShadowBanUser`, the reset and unban operations in
main.go), the mention/update/delete handlers (`handleMention`, `handleUpdate`,
`handleDeleteEvent` in main.go), the reply-assembly fragments of
`generateAndPostAltText` (visibility mapping, content-warning prefixing,
per-attachment response elements), and the HTTP alt-text endpoint
(`APIServer.handleAltText`, `CheckAndIncrementUsage` in the API modules).

Go strings are modelled as Lean `String` where only concrete values are
needed, and as `List Char` (one `Char` per byte; all relevant data is ASCII)
where the code indexes into the string byte by byte.  Go maps are modelled as
functions into `Option` or into `Nat`/`Bool` with pointwise update.  Network
and disk I/O is made explicit: results of platform calls (`GetStatus`,
`DeleteStatus`, provider generation) are passed in as parameters, and outbound
calls are recorded as `Effect` values in the order the code performs them.
-/

namespace Altbot

/-! ## Byte-string helpers (Go `strings` package operations used by the code) -/

/-- Model of Go `strings.Contains(s, sub)` over byte strings. -/
def containsSub (s sub : List Char) : Bool :=
  (List.range (s.length + 1)).any (fun i => sub.isPrefixOf (s.drop i))

/-- Model of Go `strings.ToLower` (exact on ASCII, which is all the code
compares after lowering). -/
def goToLower (s : String) : String :=
  String.mk (s.data.map Char.toLower)

/-! ## Data model: platform objects (the `mastodon` client types used) -/

/-- The fields of `mastodon.Account` that the embedded handlers read. -/
structure Account where
  id : String
  acct : String
  bot : Bool
  note : String
  deriving Repr, DecidableEq

/-- The fields of `mastodon.Attachment` that the embedded handlers read. -/
structure Attachment where
  type : String
  description : String
  url : String
  deriving Repr, DecidableEq

/-- The fields of `mastodon.Status` that the embedded handlers read.
`inReplyToID` is `none` when the status does not reply to anything
(Go `InReplyToID == nil`). -/
structure Status where
  id : String
  account : Account
  inReplyToID : Option String
  mediaAttachments : List Attachment
  visibility : String
  spoilerText : String
  language : String
  deriving Repr, DecidableEq

/-- The fields of `mastodon.Notification` that `handleMention` reads. -/
structure Notification where
  account : Account
  status : Status
  deriving Repr, DecidableEq

/-- The configuration fields of `Config` (config.toml) that the embedded
handlers read. -/
structure BotConfig where
  username : String
  ignoreBots : Bool
  dniTags : List String
  askForConsent : Bool
  deriving Repr, DecidableEq

/-- Outbound calls performed by the handlers, recorded in program order.
`genJob src reply` stands for a call of `generateAndPostAltText` (the
generation job that drives all model-provider calls for a post);
`gdprConsentRequest` for `RequestGDPRConsent`; `legacyConsentPost` for the
consent-question `PostStatus` in `requestConsent`; `deleteStatusCall` for
`c.DeleteStatus`; `adminShadowBanNotice` for `notifyAdmin`. -/
inductive Effect where
  | genJob (sourceId replyToId : String)
  | gdprConsentRequest (userId : String)
  | legacyConsentPost (sourceId : String)
  | deleteStatusCall (statusId : String)
  | adminShadowBanNotice (userId : String)
  deriving Repr, DecidableEq

/-- Number of generation jobs (`generateAndPostAltText` calls) in an effect
trace.  Each model-provider call of the bot happens inside such a job. -/
def countGenJobs (effects : List Effect) : Nat :=
  (effects.filter fun e => match e with | .genJob _ _ => true | _ => false).length

/-! ## GDPR consent detector (consent module: `containsWholeWord`,
`checkAndRecordConsent`) -/

/-- Go `isLetter`: a byte in `[a-z]` or `[A-Z]`. -/
def isLetter (c : Char) : Bool :=
  ('a' ≤ c && c ≤ 'z') || ('A' ≤ c && c ≤ 'Z')

/-- One iteration of the scan loop in Go `containsWholeWord`: the word occurs
at byte offset `i` with non-letter (or string-edge) bytes on both sides. -/
def wholeWordAt (text word : List Char) (i : Nat) : Bool :=
  ((text.drop i).take word.length == word)
    && (i == 0 || !isLetter (text.getD (i - 1) ' '))
    && (i + word.length == text.length || !isLetter (text.getD (i + word.length) ' '))

/-- Go `containsWholeWord(text, word)`: exact match, or a match at some offset
`i` with `0 ≤ i ≤ len(text)-len(word)` whose neighbours are not letters.
`text.length + 1 - word.length` is the Go loop's iteration count
`max(0, len(text)-len(word)+1)`. -/
def containsWholeWord (text word : List Char) : Bool :=
  text == word
    || (List.range (text.length + 1 - word.length)).any (wholeWordAt text word)

/-- The affirmative token list of `checkAndRecordConsent`. -/
def affirmativeResponses : List (List Char) :=
  ["yes".data, "agree".data, "i agree".data, "consent".data, "i consent".data,
   "ok".data, "okay".data, "ja".data, "oui".data, "si".data]

/-- The decision part of Go `checkAndRecordConsent`: given the HTML-stripped
plain text of the message, reject empty text, lowercase, and accept iff some
affirmative token occurs as a whole word.  (Recording the consent and sending
the confirmation DM happen iff this returns `true`; they are outside the
detector.)  `Char.toLower` agrees with Go `strings.ToLower` on ASCII. -/
def checkAndRecordConsent (plainTextContent : List Char) : Bool :=
  if plainTextContent.isEmpty then false
  else
    let responseText := plainTextContent.map Char.toLower
    affirmativeResponses.any (fun response => containsWholeWord responseText response)

/-- The claim's wording of whole-word containment: the token occurs at some
offset and any adjacent characters are not ASCII letters.  Used to compare the
code's detector against the specified acceptance condition. -/
def ClaimWholeWord (text word : List Char) : Prop :=
  ∃ i, i + word.length ≤ text.length
    ∧ (text.drop i).take word.length = word
    ∧ (i = 0 ∨ isLetter (text.getD (i - 1) ' ') = false)
    ∧ (i + word.length = text.length ∨ isLetter (text.getD (i + word.length) ' ') = false)

/-! ## Reply assembly fragments of `generateAndPostAltText` (main.go) -/

/-- The byte string `"re:"` checked by `strings.HasPrefix` in main.go. -/
def reShort : List Char := ['r', 'e', ':']

/-- The byte string `"re: "` prepended in main.go. -/
def reLong : List Char := ['r', 'e', ':', ' ']

/-- The content-warning preparation in `generateAndPostAltText`:
`if contentWarning != "" && !strings.HasPrefix(contentWarning, "re:")
 { contentWarning = "re: " + contentWarning }`. -/
def prepareContentWarning (spoilerText : List Char) : List Char :=
  if !spoilerText.isEmpty && !(reShort.isPrefixOf spoilerText) then
    reLong ++ spoilerText
  else spoilerText

/-- The claim's wording of content-warning preparation: prepend `"re: "`
unless the text is empty or already begins with `"re: "` (four bytes,
including the space). -/
def ClaimPrepareContentWarning (spoilerText : List Char) : List Char :=
  if !spoilerText.isEmpty && !(reLong.isPrefixOf spoilerText) then
    reLong ++ spoilerText
  else spoilerText

/-- The reply-visibility mapping in `generateAndPostAltText`: the 16-case
`switch` on `strings.ToLower(config.Behavior.ReplyVisibility + "," +
replyPost.Visibility)` (default: keep the source visibility), followed by
`if replyPost.Visibility == "private" { visibility = "direct" }`. -/
def mapVisibility (replyVisibility srcVisibility : String) : String :=
  let key := goToLower (replyVisibility ++ "," ++ srcVisibility)
  let v :=
    if key = "public,public" then "public"
    else if key = "public,unlisted" then "unlisted"
    else if key = "public,private" then "private"
    else if key = "public,direct" then "direct"
    else if key = "unlisted,public" then "unlisted"
    else if key = "unlisted,unlisted" then "unlisted"
    else if key = "unlisted,private" then "private"
    else if key = "unlisted,direct" then "direct"
    else if key = "private,public" then "private"
    else if key = "private,unlisted" then "private"
    else if key = "private,private" then "private"
    else if key = "private,direct" then "direct"
    else if key = "direct,public" then "direct"
    else if key = "direct,unlisted" then "direct"
    else if key = "direct,private" then "direct"
    else if key = "direct,direct" then "direct"
    else srcVisibility
  if srcVisibility = "private" then "direct" else v

/-! ## Per-attachment worker of `generateAndPostAltText` (main.go) -/

/-- Outcome of the model-provider call made by a worker: an error, or the
returned text (possibly empty, which the code treats as an error). -/
inductive ProviderOutcome where
  | ok (text : String)
  | failed
  deriving Repr, DecidableEq

/-- The localized response element a worker appends to the shared `responses`
slice.  `generated` is real generated alt text; the others stand for
`getLocalizedString(_, key, "response")` with the named key. -/
inductive RespElem where
  | generated (text : String)
  | altTextError
  | imageAlreadyHasAltText
  | unsupportedFile
  deriving Repr, DecidableEq

/-- The `err != nil` / `altText == ""` post-processing of a generation branch:
failures and empty responses degrade to the localized error element. -/
def genOutcomeElem (gen : ProviderOutcome) : RespElem :=
  match gen with
  | .failed => RespElem.altTextError
  | .ok text => if text = "" then RespElem.altTextError else RespElem.generated text

/-- The elements appended by one attachment worker in
`generateAndPostAltText`, following the worker's branch structure:
rate-limit denial; the three generation branches (image / supported video
(`video` or `gifv`) / supported audio, each only when the attachment has no
description); the already-has-alt-text branch (only once per job, tracked by
`alreadyExists`); the `videoProcessingCapability && audioProcessingCapability`
unsupported branch; and the fall-through, which reaches the `altText == ""`
check with an empty string and appends the localized error element. -/
def processAttachment (videoCap audioCap : Bool) (rateAllowed : Bool)
    (alreadyExists : Bool) (att : Attachment) (gen : ProviderOutcome) :
    List RespElem :=
  if !rateAllowed then [RespElem.altTextError]
  else if att.type == "image" && att.description == "" then
    [genOutcomeElem gen]
  else if (att.type == "video" || att.type == "gifv") && videoCap && att.description == "" then
    [genOutcomeElem gen]
  else if att.type == "audio" && audioCap && att.description == "" then
    [genOutcomeElem gen]
  else if att.description != "" then
    (if alreadyExists then [] else [RespElem.imageAlreadyHasAltText])
  else if videoCap && audioCap then
    [RespElem.unsupportedFile]
  else
    [RespElem.altTextError]

/-- An attachment is classified `unsupported` (claim C8's hypothesis class):
no existing description, and its type is none of image, supported video
(`video`/`gifv` with video capability), or supported audio. -/
def unsupportedAttachment (videoCap audioCap : Bool) (att : Attachment) : Bool :=
  att.description == ""
    && !(att.type == "image")
    && !((att.type == "video" || att.type == "gifv") && videoCap)
    && !(att.type == "audio" && audioCap)

/-! ## Event handlers (main.go) -/

/-- Go `isDNI`: the sender is the bot itself, a bot account while
`dni.ignore_bots` is set, or carries one of the configured DNI tags in its
profile note. -/
def isDNI (cfg : BotConfig) (account : Account) : Bool :=
  if account.acct == cfg.username then true
  else if account.bot && cfg.ignoreBots then true
  else cfg.dniTags.any (fun tag => containsSub account.note.data tag.data)

/-- The attachment-eligibility test shared by `handleUpdate` and
`requestConsent`:
`Type == "image" || ((Type == "video" || Type == "gifv" &&
videoProcessingCapability) || (Type == "audio" &&
audioProcessingCapability))`.  Note Go `&&` binds tighter than `||`, so plain
`video` passes regardless of the video capability. -/
def supportedUpdateType (videoCap audioCap : Bool) (a : Attachment) : Bool :=
  a.type == "image"
    || ((a.type == "video" || (a.type == "gifv" && videoCap))
        || (a.type == "audio" && audioCap))

/-- The attachment loop of `handleUpdate`: the first eligible attachment
without a description either triggers one GDPR consent request (author
without consent, then `return`) or one generation job (then `break`);
described attachments only log and the loop continues. -/
def handleUpdateAttachments (consentDB : String → Bool) (videoCap audioCap : Bool)
    (status : Status) : List Attachment → List Effect
  | [] => []
  | a :: rest =>
    if supportedUpdateType videoCap audioCap a then
      if a.description == "" then
        if !consentDB status.account.id then
          [Effect.gdprConsentRequest status.account.id]
        else
          [Effect.genJob status.id status.id]
      else handleUpdateAttachments consentDB videoCap audioCap status rest
    else handleUpdateAttachments consentDB videoCap audioCap status rest

/-- Go `handleUpdate`: skip the bot's own posts, then run the attachment
loop.  `consentDB` models `HasUserConsent`. -/
def handleUpdate (cfg : BotConfig) (consentDB : String → Bool)
    (videoCap audioCap : Bool) (status : Status) : List Effect :=
  if status.account.acct == cfg.username then []
  else handleUpdateAttachments consentDB videoCap audioCap status status.mediaAttachments

/-- An entry of the legacy `consentRequests` table (`ConsentRequest` struct in
main.go). -/
structure ConsentRequest where
  requestID : String
  timestamp : Nat
  deriving Repr, DecidableEq

/-- Go `requestConsent`: if every eligible attachment already has alt text,
or the source post was already asked, do nothing; otherwise record a legacy
consent request and post the consent question in the source thread. -/
def requestConsent (videoCap audioCap : Bool)
    (consentRequests : String → Option ConsentRequest) (now : Nat)
    (status : Status) (notif : Notification) :
    (String → Option ConsentRequest) × List Effect :=
  let hasAltText := !(status.mediaAttachments.any (fun a =>
    a.description == "" && supportedUpdateType videoCap audioCap a))
  if hasAltText then (consentRequests, [])
  else if (consentRequests status.id).isSome then (consentRequests, [])
  else
    (fun k => if k = status.id then
        some { requestID := notif.status.id, timestamp := now }
      else consentRequests k,
     [Effect.legacyConsentPost status.id])

/-- Go `handleMention`.  `fetched` is the result of `c.GetStatus` on the
mention's `InReplyToID` (`none` models a fetch error).  Flow: DNI check, the
mention must reply to something, the source must have media; then either the
sender is the source author (GDPR consent gate, then a generation job
replying to the mention) or not (a generation job immediately when legacy
consent is disabled, otherwise `requestConsent`). -/
def handleMention (cfg : BotConfig) (videoCap audioCap : Bool)
    (consentDB : String → Bool)
    (consentRequests : String → Option ConsentRequest) (now : Nat)
    (notif : Notification) (fetched : Option Status) :
    (String → Option ConsentRequest) × List Effect :=
  if isDNI cfg notif.account then (consentRequests, [])
  else
    match notif.status.inReplyToID with
    | none => (consentRequests, [])
    | some _ =>
      match fetched with
      | none => (consentRequests, [])
      | some status =>
        if status.mediaAttachments.length = 0 then (consentRequests, [])
        else if status.account.id == notif.account.id then
          if !consentDB notif.account.id then
            (consentRequests, [Effect.gdprConsentRequest notif.account.id])
          else
            (consentRequests, [Effect.genJob status.id notif.status.id])
        else if !cfg.askForConsent then
          (consentRequests, [Effect.genJob status.id notif.status.id])
        else
          requestConsent videoCap audioCap consentRequests now status notif

/-! ## Delete cascade (`handleDeleteEvent`, main.go) -/

/-- An entry of the `replyMap` table (`ReplyInfo` struct in main.go). -/
structure ReplyInfo where
  replyID : String
  timestamp : Nat
  deriving Repr, DecidableEq

/-- Go `handleDeleteEvent`: look up the deleted source id in `replyMap`; if
present, call `DeleteStatus` on the recorded bot reply, and remove the entry
only when that call succeeds (`deleteOk`). -/
def handleDeleteEvent (replyMap : String → Option ReplyInfo) (originalID : String)
    (deleteOk : Bool) : (String → Option ReplyInfo) × List Effect :=
  match replyMap originalID with
  | none => (replyMap, [])
  | some replyInfo =>
    if deleteOk then
      (fun k => if k = originalID then none else replyMap k,
       [Effect.deleteStatusCall replyInfo.replyID])
    else
      (replyMap, [Effect.deleteStatusCall replyInfo.replyID])

/-! ## Rate limiter (main.go) -/

/-- The `rate_limit` section of `Config`.  Go ints are modelled as `Int`. -/
structure RateLimitConfig where
  Enabled : Bool
  MaxRequestsPerMinute : Int
  MaxRequestsPerHour : Int
  NewAccountMaxRequestsPerMinute : Int
  NewAccountMaxRequestsPerHour : Int
  ShadowBanThreshold : Int
  deriving Repr, DecidableEq

/-- The `RateLimiter` struct: per-user counters and the two sets, as total
maps (Go map access yields the zero value for absent keys). -/
structure RateLimiter where
  MinuteCounts : String → Nat
  HourCounts : String → Nat
  ExceededCounts : String → Nat
  ShadowBanned : String → Bool
  Whitelist : String → Bool

/-- Pointwise map update (Go `m[k] = v`). -/
def updNat (f : String → Nat) (k : String) (v : Nat) : String → Nat :=
  fun x => if x = k then v else f x

/-- Pointwise map update (Go `m[k] = v`) for boolean sets. -/
def updBool (f : String → Bool) (k : String) (v : Bool) : String → Bool :=
  fun x => if x = k then v else f x

/-- Go `NewRateLimiter`: all counters zero, both sets empty. -/
def NewRateLimiter : RateLimiter :=
  { MinuteCounts := fun _ => 0
    HourCounts := fun _ => 0
    ExceededCounts := fun _ => 0
    ShadowBanned := fun _ => false
    Whitelist := fun _ => false }

/-- Go `RateLimiter.IsShadowBanned`. -/
def RateLimiter.IsShadowBanned (rl : RateLimiter) (userID : String) : Bool :=
  rl.ShadowBanned userID

/-- Go `RateLimiter.ShadowBanUser`: a no-op for whitelisted users, otherwise
add to the shadow-ban set and notify the admin. -/
def RateLimiter.ShadowBanUser (rl : RateLimiter) (userID : String) :
    RateLimiter × List Effect :=
  if rl.Whitelist userID then (rl, [])
  else
    ({ rl with ShadowBanned := updBool rl.ShadowBanned userID true },
     [Effect.adminShadowBanNotice userID])

/-- Go `RateLimiter.Increment`.  `isNew` is the result of `IsNewAccount`
(account-age lookup, passed in as a parameter).  Returns the new state, the
allow/deny result, and the admin-notification effects. -/
def RateLimiter.Increment (cfg : RateLimitConfig) (rl : RateLimiter)
    (userID : String) (isNew : Bool) : RateLimiter × Bool × List Effect :=
  if !cfg.Enabled then (rl, true, [])
  else if rl.IsShadowBanned userID then (rl, false, [])
  else
    let maxPerMinute := if isNew then cfg.NewAccountMaxRequestsPerMinute else cfg.MaxRequestsPerMinute
    let maxPerHour := if isNew then cfg.NewAccountMaxRequestsPerHour else cfg.MaxRequestsPerHour
    if (rl.MinuteCounts userID : Int) ≥ maxPerMinute then
      let rl1 := { rl with ExceededCounts := updNat rl.ExceededCounts userID (rl.ExceededCounts userID + 1) }
      if (rl1.ExceededCounts userID : Int) ≥ cfg.ShadowBanThreshold then
        let banned := rl1.ShadowBanUser userID
        (banned.1, false, banned.2)
      else (rl1, false, [])
    else if (rl.HourCounts userID : Int) ≥ maxPerHour then
      let rl1 := { rl with ExceededCounts := updNat rl.ExceededCounts userID (rl.ExceededCounts userID + 1) }
      if (rl1.ExceededCounts userID : Int) ≥ cfg.ShadowBanThreshold then
        let banned := rl1.ShadowBanUser userID
        (banned.1, false, banned.2)
      else (rl1, false, [])
    else
      ({ rl with
          MinuteCounts := updNat rl.MinuteCounts userID (rl.MinuteCounts userID + 1)
          HourCounts := updNat rl.HourCounts userID (rl.HourCounts userID + 1) },
       true, [])

/-- Go `RateLimiter.ResetMinuteCounts`: zero every per-minute counter. -/
def RateLimiter.ResetMinuteCounts (rl : RateLimiter) : RateLimiter :=
  { rl with MinuteCounts := fun _ => 0 }

/-- Go `RateLimiter.ResetHourCounts`: zero every per-hour counter and every
exceed counter. -/
def RateLimiter.ResetHourCounts (rl : RateLimiter) : RateLimiter :=
  { rl with HourCounts := fun _ => 0, ExceededCounts := fun _ => 0 }

/-- Go `RateLimiter.UnbanAndWhitelistUser`: remove from the shadow-ban set
and add to the whitelist. -/
def RateLimiter.UnbanAndWhitelistUser (rl : RateLimiter) (userID : String) :
    RateLimiter :=
  { rl with
      ShadowBanned := updBool rl.ShadowBanned userID false
      Whitelist := updBool rl.Whitelist userID true }

/-- The operations that modify the rate limiter at run time. -/
inductive RLOp where
  | increment (userID : String) (isNew : Bool)
  | resetMinuteCounts
  | resetHourCounts
  | unbanAndWhitelistUser (userID : String)
  deriving Repr, DecidableEq

/-- Apply one rate-limiter operation (discarding results and effects). -/
def RateLimiter.applyOp (cfg : RateLimitConfig) (rl : RateLimiter) : RLOp → RateLimiter
  | .increment u isNew => (rl.Increment cfg u isNew).1
  | .resetMinuteCounts => rl.ResetMinuteCounts
  | .resetHourCounts => rl.ResetHourCounts
  | .unbanAndWhitelistUser u => rl.UnbanAndWhitelistUser u

/-- Run a sequence of rate-limiter operations from a state. -/
def RateLimiter.runOps (cfg : RateLimitConfig) (rl : RateLimiter) : List RLOp → RateLimiter
  | [] => rl
  | op :: ops => (rl.applyOp cfg op).runOps cfg ops

/-- The shadow-ban invariant of claim C3: a user's exceed counter is above
the threshold only if the user is shadow-banned or whitelisted. -/
def RLInv (cfg : RateLimitConfig) (rl : RateLimiter) : Prop :=
  ∀ u : String, cfg.ShadowBanThreshold < (rl.ExceededCounts u : Int) →
    rl.ShadowBanned u = true ∨ rl.Whitelist u = true

/-! ## HTTP alt-text endpoint (api_server.go, api key store) -/

/-- The fields of the Go `APIKey` struct that the endpoint reads.  Times are
wall-clock seconds; `lastResetMonth`/`lastResetYear` model the
month/year components of `LastReset`. -/
structure APIKey where
  key : String
  email : String
  usageMonth : Nat
  lastResetMonth : Nat
  lastResetYear : Nat
  active : Bool
  expiresAt : Nat
  deriving Repr, DecidableEq

/-- The current wall clock, with its month and year components
(`time.Now()`, `now.Month()`, `now.Year()`). -/
structure APIClock where
  now : Nat
  month : Nat
  year : Nat
  deriving Repr, DecidableEq

/-- Pointwise update of the API key store (the Go code mutates the struct
through a pointer held in the map). -/
def updKey (store : String → Option APIKey) (k : String) (v : APIKey) :
    String → Option APIKey :=
  fun x => if x = k then some v else store x

/-- Go `ValidateAPIKey`: `some` key data when the key exists, is active and
unexpired; `none` models the error returns.  (The reload-from-file retry
re-reads the same persisted store and is a no-op here.) -/
def ValidateAPIKey (store : String → Option APIKey) (key : String)
    (clk : APIClock) : Option APIKey :=
  match store key with
  | none => none
  | some apiKey =>
    if !apiKey.active then none
    else if clk.now > apiKey.expiresAt then none
    else some apiKey

/-- Go `CheckAndIncrementUsage`: reset the monthly counter on a month change
(a mutation that persists even if the limit check then fails), deny when the
counter has reached the monthly limit, otherwise increment.  Returns the new
store and whether the request is within limits. -/
def CheckAndIncrementUsage (store : String → Option APIKey) (key : String)
    (monthlyLimit : Int) (clk : APIClock) : (String → Option APIKey) × Bool :=
  match store key with
  | none => (store, false)
  | some apiKey =>
    let apiKey1 :=
      if clk.month ≠ apiKey.lastResetMonth ∨ clk.year ≠ apiKey.lastResetYear then
        { apiKey with usageMonth := 0, lastResetMonth := clk.month, lastResetYear := clk.year }
      else apiKey
    if (apiKey1.usageMonth : Int) ≥ monthlyLimit then
      (updKey store key apiKey1, false)
    else
      (updKey store key { apiKey1 with usageMonth := apiKey1.usageMonth + 1 }, true)

/-- Go `extractAPIKey`: empty header yields no key; a `"Bearer "`-prefixed
header is stripped of the seven-byte prefix; anything else is the key. -/
def extractAPIKey (authHeader : String) : String :=
  if authHeader = "" then ""
  else if "Bearer ".data.isPrefixOf authHeader.data then
    String.mk (authHeader.data.drop 7)
  else authHeader

/-- Go `getImageFormat`: extension of the lowercased filename first, then the
content type. -/
def getImageFormat (filename contentType : String) : String :=
  let fromName :=
    if filename ≠ "" then
      let parts := (goToLower filename).splitOn "."
      if parts.length > 1 then
        let ext := parts.getLastD ""
        if ext = "jpg" ∨ ext = "jpeg" then "jpeg"
        else if ext = "png" then "png"
        else if ext = "gif" then "gif"
        else if ext = "webp" then "webp"
        else if ext = "bmp" then "bmp"
        else if ext = "tiff" ∨ ext = "tif" then "tiff"
        else ""
      else ""
    else ""
  if fromName ≠ "" then fromName
  else if contentType = "image/jpeg" then "jpeg"
  else if contentType = "image/png" then "png"
  else if contentType = "image/gif" then "gif"
  else if contentType = "image/webp" then "webp"
  else if contentType = "image/bmp" then "bmp"
  else if contentType = "image/tiff" then "tiff"
  else ""

/-- Everything about the request body and downstream processing that
`handleAltText` consults after the usage check: multipart parse success, the
`image` form file, the read of its bytes, its filename/content type, the
optional `language` field, queue admission within 10 s, and the processing
result (`none` = 120 s timeout, `some none` = generation error,
`some (some t)` = generated text). -/
structure AltTextRequestBody where
  parseFormOk : Bool
  imageFieldOk : Bool
  readOk : Bool
  filename : String
  contentType : String
  language : String
  queueAdmitted : Bool
  procResult : Option (Option String)
  deriving Repr, DecidableEq

/-- The response of the alt-text endpoint: an error status or a success
payload. -/
inductive APIResponse where
  | apiError (status : Nat)
  | ok (altText : String) (language : String)
  deriving Repr, DecidableEq

/-- Go `APIServer.handleAltText`, in handler order: method check (405), key
extraction (401), key validation (401), usage check-and-increment (429),
multipart parse (400), `image` field (400), file read (400), format (400),
queue admission (503), then the processing result (504 timeout / 500 error /
200).  Returns the response and the key store as left by the handler. -/
def APIServer.handleAltText (store : String → Option APIKey) (monthlyLimit : Int)
    (clk : APIClock) (method : String) (authHeader : String)
    (body : AltTextRequestBody) : APIResponse × (String → Option APIKey) :=
  if method ≠ "POST" then (.apiError 405, store)
  else
    let apiKey := extractAPIKey authHeader
    if apiKey = "" then (.apiError 401, store)
    else
      match ValidateAPIKey store apiKey clk with
      | none => (.apiError 401, store)
      | some _ =>
        let checked := CheckAndIncrementUsage store apiKey monthlyLimit clk
        if !checked.2 then (.apiError 429, checked.1)
        else if !body.parseFormOk then (.apiError 400, checked.1)
        else if !body.imageFieldOk then (.apiError 400, checked.1)
        else if !body.readOk then (.apiError 400, checked.1)
        else if getImageFormat body.filename body.contentType = "" then (.apiError 400, checked.1)
        else
          let language := if body.language = "" then "en" else body.language
          if !body.queueAdmitted then (.apiError 503, checked.1)
          else
            match body.procResult with
            | none => (.apiError 504, checked.1)
            | some none => (.apiError 500, checked.1)
            | some (some text) => (.ok text language, checked.1)

/-! ## Shared concrete objects used by witnesses and counterexamples -/

/-- A consent database with no `ConsentRecord` at all. -/
def emptyConsentDB : String → Bool := fun _ => false

/-- A reply map holding one entry: source `"s1"` ↦ bot reply `"r1"`. -/
def replyMap1 : String → Option ReplyInfo :=
  fun k => if k = "s1" then some { replyID := "r1", timestamp := 5 } else none

/-- The rate-limit configuration of the spec's escalation scenario:
`maxRequestsPerHour = 3`, `shadowBanThreshold = 2`, a minute ceiling that
does not interfere, rate limiting enabled. -/
def escalationCfg : RateLimitConfig :=
  { Enabled := true
    MaxRequestsPerMinute := 100
    MaxRequestsPerHour := 3
    NewAccountMaxRequestsPerMinute := 100
    NewAccountMaxRequestsPerHour := 3
    ShadowBanThreshold := 2 }

/-! ## Theorems -/

/-- C6, counterexample: with `reply_visibility = private` and a public
source, one application yields `private`, but re-applying the mapping to that
output yields `direct` (the final downgrade rule fires on a `private`
source), so the mapping is not idempotent as claimed. -/
theorem mapVisibility_not_idempotent_cx :
    mapVisibility "private" (mapVisibility "private" "public") ≠
      mapVisibility "private" "public" := by decide

/-- C6, amended: the reply-visibility mapping is idempotent for configured
visibilities `public`, `unlisted` and `direct` on every source visibility,
and for `private` on source visibilities `private` and `direct`; for
configured visibility `private` with source `public` or `unlisted` the first
application yields `private` and the second `direct`. -/
theorem mapVisibility_idempotent_except_private :
    ((["public", "unlisted", "direct"].all fun c =>
        ["public", "unlisted", "private", "direct"].all fun s =>
          mapVisibility c (mapVisibility c s) == mapVisibility c s) = true)
    ∧ mapVisibility "private" (mapVisibility "private" "private")
        = mapVisibility "private" "private"
    ∧ mapVisibility "private" (mapVisibility "private" "direct")
        = mapVisibility "private" "direct"
    ∧ mapVisibility "private" "public" = "private"
    ∧ mapVisibility "private" (mapVisibility "private" "public") = "direct"
    ∧ mapVisibility "private" "unlisted" = "private"
    ∧ mapVisibility "private" (mapVisibility "private" "unlisted") = "direct" := by
  decide

/-- C7, counterexample: the code tests the three-byte prefix `"re:"`, not
`"re: "`; on the spoiler text `"re:x"` (non-empty, not beginning with
`"re: "`) the code leaves the text unchanged while the claimed rule would
prepend. -/
theorem prepareContentWarning_space_check_cx :
    prepareContentWarning "re:x".data ≠ ClaimPrepareContentWarning "re:x".data := by
  decide

/-- C7, amended: the reply's content warning equals the source's spoiler
text, except that when it is non-empty and does not already begin with
`"re:"` (three bytes, no trailing space) the prefix `"re: "` is prepended.
Any spoiler beginning with `"re:"` — in particular one beginning with
`"re: "` — is carried through unchanged, and the preparation is
idempotent. -/
theorem prepareContentWarning_re_behavior :
    (∀ s : List Char, prepareContentWarning (reShort ++ s) = reShort ++ s)
    ∧ (∀ s : List Char,
        prepareContentWarning (prepareContentWarning s) = prepareContentWarning s)
    ∧ prepareContentWarning "spoiler".data = "re: spoiler".data := by
  have hpre : ∀ s : List Char, reShort.isPrefixOf (reShort ++ s) = true := by
    intro s
    simp [reShort, List.isPrefixOf]
  have hshort : ∀ s : List Char, prepareContentWarning (reShort ++ s) = reShort ++ s := by
    intro s
    simp [prepareContentWarning, hpre s, reShort]
  refine ⟨hshort, ?_, by decide⟩
  intro s
  by_cases he : s.isEmpty
  · simp [prepareContentWarning, he]
  · by_cases hp : reShort.isPrefixOf s
    · simp [prepareContentWarning, he, hp]
    · have hstep : prepareContentWarning s = reLong ++ s := by
        simp [prepareContentWarning, he, hp]
      rw [hstep]
      have hL : reLong ++ s = reShort ++ (' ' :: s) := by
        simp [reLong, reShort]
      rw [hL, hshort]

/-- C4: for a source id with a `RequestReply` entry, handling its delete
event makes exactly one `deleteStatus` call, on the recorded bot-reply id,
and (the deletion succeeding) removes exactly that entry; a delete event for
an unknown id makes no call and changes nothing. -/
theorem handleDeleteEvent_cascade :
    (∀ (replyMap : String → Option ReplyInfo) (s : String) (ri : ReplyInfo),
      replyMap s = some ri →
        (handleDeleteEvent replyMap s true).2 = [Effect.deleteStatusCall ri.replyID]
        ∧ (handleDeleteEvent replyMap s true).1 s = none
        ∧ ∀ k, k ≠ s → (handleDeleteEvent replyMap s true).1 k = replyMap k)
    ∧ (∀ (replyMap : String → Option ReplyInfo) (s : String) (deleteOk : Bool),
      replyMap s = none → handleDeleteEvent replyMap s deleteOk = (replyMap, [])) := by
  constructor
  · intro m s ri h
    refine ⟨by simp [handleDeleteEvent, h], by simp [handleDeleteEvent, h], ?_⟩
    intro k hk
    simp [handleDeleteEvent, h, hk]
  · intro m s deleteOk h
    simp [handleDeleteEvent, h]

/-- C4, witness: the cascade on the one-entry reply map. -/
theorem handleDeleteEvent_cascade_witness :
    (handleDeleteEvent replyMap1 "s1" true).2 = [Effect.deleteStatusCall "r1"]
    ∧ (handleDeleteEvent replyMap1 "s1" true).1 "s1" = none :=
  ⟨(handleDeleteEvent_cascade.1 replyMap1 "s1" { replyID := "r1", timestamp := 5 } rfl).1,
   (handleDeleteEvent_cascade.1 replyMap1 "s1" { replyID := "r1", timestamp := 5 } rfl).2.1⟩

/-- C9: when the `deleteStatus` call fails while handling a delete event for
a source with a `RequestReply` entry, the entry is retained (the table is
returned unchanged, though the call was made); the entry is removed only when
the deletion succeeds. -/
theorem handleDeleteEvent_error_retains :
    ∀ (replyMap : String → Option ReplyInfo) (s : String) (ri : ReplyInfo),
      replyMap s = some ri →
        (handleDeleteEvent replyMap s false).1 = replyMap
        ∧ (handleDeleteEvent replyMap s false).2 = [Effect.deleteStatusCall ri.replyID]
        ∧ ∀ deleteOk : Bool,
            (handleDeleteEvent replyMap s deleteOk).1 s = none → deleteOk = true := by
  intro m s ri h
  refine ⟨by simp [handleDeleteEvent, h], by simp [handleDeleteEvent, h], ?_⟩
  intro deleteOk hnone
  cases deleteOk with
  | true => rfl
  | false => simp [handleDeleteEvent, h] at hnone

/-- C9, witness: failure on the one-entry reply map retains the entry. -/
theorem handleDeleteEvent_error_retains_witness :
    (handleDeleteEvent replyMap1 "s1" false).1 = replyMap1
    ∧ (handleDeleteEvent replyMap1 "s1" false).2 = [Effect.deleteStatusCall "r1"] :=
  ⟨(handleDeleteEvent_error_retains replyMap1 "s1" { replyID := "r1", timestamp := 5 } rfl).1,
   (handleDeleteEvent_error_retains replyMap1 "s1" { replyID := "r1", timestamp := 5 } rfl).2.1⟩

/-- C8, counterexample: a `video` attachment without description under a
provider without video or audio capability is classified unsupported, yet the
worker records the localized *error* element, not the "unsupported" one: the
unsupported branch is guarded by `videoProcessingCapability &&
audioProcessingCapability`. -/
theorem processAttachment_unsupported_cx :
    unsupportedAttachment false false
        { type := "video", description := "", url := "u" } = true
    ∧ processAttachment false false true false
        { type := "video", description := "", url := "u" } ProviderOutcome.failed
        = [RespElem.altTextError]
    ∧ RespElem.altTextError ≠ RespElem.unsupportedFile := by decide

/-- C8, amended: for every attachment classified as unsupported (and not
rate-limited), the worker records exactly one localized element, but it is
the "unsupported" element only when the provider has both video and audio
capabilities; under every other capability combination it is the localized
generic error element. -/
theorem processAttachment_unsupported_elements :
    ∀ (videoCap audioCap alreadyExists : Bool) (att : Attachment)
      (gen : ProviderOutcome),
      unsupportedAttachment videoCap audioCap att = true →
        processAttachment videoCap audioCap true alreadyExists att gen
          = if videoCap && audioCap then [RespElem.unsupportedFile]
            else [RespElem.altTextError] := by
  intro videoCap audioCap alreadyExists att gen h
  simp only [unsupportedAttachment, Bool.and_eq_true, Bool.not_eq_true'] at h
  obtain ⟨⟨⟨hdesc, himg⟩, hvid⟩, haud⟩ := h
  have hd : att.description = "" := by simpa using hdesc
  simp [processAttachment, himg, hvid, haud, hd]

/-- C8, witness: with both capabilities present, an unclassifiable
attachment yields the single localized unsupported element. -/
theorem processAttachment_unsupported_elements_witness :
    processAttachment true true true false
        { type := "unknown", description := "", url := "u" } ProviderOutcome.failed
      = [RespElem.unsupportedFile] := by
  simpa using processAttachment_unsupported_elements true true false
    { type := "unknown", description := "", url := "u" } ProviderOutcome.failed (by decide)

/-- Helper: unfolding of one scan-loop iteration into propositional form. -/
theorem wholeWordAt_eq_true_iff (text word : List Char) (i : Nat) :
    wholeWordAt text word i = true ↔
      ((text.drop i).take word.length = word
        ∧ (i = 0 ∨ isLetter (text.getD (i - 1) ' ') = false)
        ∧ (i + word.length = text.length
            ∨ isLetter (text.getD (i + word.length) ' ') = false)) := by
  unfold wholeWordAt
  simp [Bool.and_eq_true, Bool.or_eq_true, Bool.not_eq_true', and_assoc]

/-- Helper: the code's `containsWholeWord` agrees with the claim's wording of
whole-word containment. -/
theorem containsWholeWord_iff (text word : List Char) :
    containsWholeWord text word = true ↔ ClaimWholeWord text word := by
  unfold containsWholeWord ClaimWholeWord
  rw [Bool.or_eq_true, List.any_eq_true]
  constructor
  · rintro (h | ⟨i, hmem, hw⟩)
    · replace h : text = word := by simpa using h
      subst h
      exact ⟨0, by simp, by simp, Or.inl rfl, Or.inl (by simp)⟩
    · rw [List.mem_range] at hmem
      rw [wholeWordAt_eq_true_iff] at hw
      exact ⟨i, by omega, hw.1, hw.2.1, hw.2.2⟩
  · rintro ⟨i, hle, hsl, hl, hr⟩
    right
    exact ⟨i, List.mem_range.mpr (by omega),
      (wholeWordAt_eq_true_iff text word i).mpr ⟨hsl, hl, hr⟩⟩

/-- C5: the affirmative GDPR-consent detector accepts a message exactly when
the lowercased plain text of its body contains one of the tokens `yes`,
`agree`, `i agree`, `consent`, `i consent`, `ok`, `okay`, `ja`, `oui`, `si`
as a whole word (adjacent characters are not ASCII letters); in particular
`"yesterday"` and `"eyes"` do not grant consent while `"Yes!"`, `"yes."` and
`"I agree."` do. -/
theorem checkAndRecordConsent_wholeWord :
    (∀ plainText : List Char,
      checkAndRecordConsent plainText = true ↔
        ∃ w ∈ affirmativeResponses, ClaimWholeWord (plainText.map Char.toLower) w)
    ∧ checkAndRecordConsent "yesterday".data = false
    ∧ checkAndRecordConsent "eyes".data = false
    ∧ checkAndRecordConsent "Yes!".data = true
    ∧ checkAndRecordConsent "yes.".data = true
    ∧ checkAndRecordConsent "I agree.".data = true := by
  refine ⟨?_, by decide, by decide, by decide, by decide, by decide⟩
  intro t
  by_cases he : t.isEmpty
  · have ht : t = [] := by simpa using he
    subst ht
    simp only [checkAndRecordConsent, List.isEmpty_nil, if_true, List.map_nil]
    constructor
    · intro h
      exact absurd h (by decide)
    · rintro ⟨w, hw, i, hle, hsl, _⟩
      have hw0 : w = [] := by simpa using hsl.symm
      subst hw0
      exact absurd hw (by decide)
  · simp only [checkAndRecordConsent, he, Bool.false_eq_true, if_false,
      List.any_eq_true, containsWholeWord_iff]

/-- Helper: the update-handler attachment loop submits no generation job
when the post's author has no consent record. -/
theorem handleUpdateAttachments_no_consent_no_genJob
    (consentDB : String → Bool) (videoCap audioCap : Bool) (status : Status)
    (hc : consentDB status.account.id = false) :
    ∀ atts : List Attachment,
      countGenJobs (handleUpdateAttachments consentDB videoCap audioCap status atts) = 0 := by
  intro atts
  induction atts with
  | nil => simp [handleUpdateAttachments, countGenJobs]
  | cons a rest ih =>
    unfold handleUpdateAttachments
    by_cases hs : supportedUpdateType videoCap audioCap a
    · by_cases hd : a.description == ""
      · simp [hs, hd, hc, countGenJobs]
      · simpa [hs, hd] using ih
    · simpa [hs] using ih

/-- C1, counterexample: with legacy consent disabled
(`behavior.ask_for_consent = false`), a mention by a *different* user on a
media post authored by `"u1"` — who has no `ConsentRecord` — submits a
generation job over `"u1"`'s post: `handleMention` checks GDPR consent only
when the sender is the source author. -/
theorem handleMention_bypasses_author_consent_cx :
    emptyConsentDB "u1" = false
    ∧ (let cfg : BotConfig :=
        { username := "altbot", ignoreBots := false, dniTags := [], askForConsent := false }
      let author : Account := { id := "u1", acct := "u", bot := false, note := "" }
      let sender : Account := { id := "v1", acct := "v", bot := false, note := "" }
      let source : Status :=
        { id := "s1", account := author, inReplyToID := none
          mediaAttachments := [{ type := "image", description := "", url := "x" }]
          visibility := "public", spoilerText := "", language := "en" }
      let mention : Status :=
        { id := "m1", account := sender, inReplyToID := some "s1"
          mediaAttachments := [], visibility := "public", spoilerText := "", language := "en" }
      source.account.id = "u1"
      ∧ (handleMention cfg true true emptyConsentDB (fun _ => none) 0
          { account := sender, status := mention } (some source)).2
          = [Effect.genJob "s1" "m1"]
      ∧ countGenJobs (handleMention cfg true true emptyConsentDB (fun _ => none) 0
          { account := sender, status := mention } (some source)).2 = 1) := by
  refine ⟨rfl, rfl, ?_, rfl⟩
  rfl

/-- C1, amended: for every user `U` with no `ConsentRecord`, handling an
`Update` event for a post authored by `U` produces no generation job (hence
no model-provider call), and handling a `Mention` event whose *sender* is the
author `U` of the source post produces no generation job.  (A mention by a
different user is gated only by the legacy-consent setting, not by the
author's GDPR consent — see the counterexample.) -/
theorem handlers_gate_on_missing_consent (cfg : BotConfig) (videoCap audioCap : Bool)
    (consentDB : String → Bool)
    (consentRequests : String → Option ConsentRequest) (now : Nat) (u : String)
    (hc : consentDB u = false) :
    (∀ status : Status, status.account.id = u →
      countGenJobs (handleUpdate cfg consentDB videoCap audioCap status) = 0)
    ∧ (∀ (notif : Notification) (source : Status),
        notif.account.id = u → source.account.id = u →
        countGenJobs (handleMention cfg videoCap audioCap consentDB
          consentRequests now notif (some source)).2 = 0) := by
  constructor
  · intro status hst
    unfold handleUpdate
    by_cases hown : status.account.acct == cfg.username
    · simp [hown, countGenJobs]
    · simp only [hown, Bool.false_eq_true, if_false]
      exact handleUpdateAttachments_no_consent_no_genJob consentDB videoCap audioCap
        status (by rw [hst]; exact hc) _
  · intro notif source hn hsrc
    unfold handleMention
    by_cases hdni : isDNI cfg notif.account
    · simp [hdni, countGenJobs]
    · simp only [hdni, Bool.false_eq_true, if_false]
      cases hrep : notif.status.inReplyToID with
      | none => simp [countGenJobs]
      | some pid =>
        by_cases hmed : source.mediaAttachments.length = 0
        · simp [hmed, countGenJobs]
        · have heq : (source.account.id == notif.account.id) = true := by
            rw [hsrc, hn]; simp
          have hcons : consentDB notif.account.id = false := by rw [hn]; exact hc
          simp [hmed, heq, hcons, countGenJobs]

/-- C1, witness: for a concrete consent-less author, neither the update
handler nor the author's own mention submits a generation job. -/
theorem handlers_gate_on_missing_consent_witness :
    countGenJobs (handleUpdate
        { username := "altbot", ignoreBots := false, dniTags := [], askForConsent := true }
        emptyConsentDB true true
        { id := "p1"
          account := { id := "u1", acct := "u", bot := false, note := "" }
          inReplyToID := none
          mediaAttachments := [{ type := "image", description := "", url := "x" }]
          visibility := "public", spoilerText := "", language := "en" }) = 0 :=
  (handlers_gate_on_missing_consent
      { username := "altbot", ignoreBots := false, dniTags := [], askForConsent := true }
      true true emptyConsentDB (fun _ => none) 0 "u1" rfl).1
    { id := "p1"
      account := { id := "u1", acct := "u", bot := false, note := "" }
      inReplyToID := none
      mediaAttachments := [{ type := "image", description := "", url := "x" }]
      visibility := "public", spoilerText := "", language := "en" } rfl

/-- Iterated `Increment` calls for one user: `incrementTrace cfg rl u n` is
the state, result and effects of the `n`-th successive call (counters are not
reset in between, modelling calls within one minute/hour window). -/
def incrementTrace (cfg : RateLimitConfig) (rl : RateLimiter) (u : String) :
    Nat → RateLimiter × Bool × List Effect
  | 0 => (rl, true, [])
  | n + 1 => ((incrementTrace cfg rl u n).1).Increment cfg u false

/-- Helper: the allow branch of `Increment`. -/
theorem Increment_allow (cfg : RateLimitConfig) (rl : RateLimiter) (u : String)
    (isNew : Bool) (hen : cfg.Enabled = true) (hb : rl.ShadowBanned u = false)
    (hm : (rl.MinuteCounts u : Int) <
      (if isNew then cfg.NewAccountMaxRequestsPerMinute else cfg.MaxRequestsPerMinute))
    (hh : (rl.HourCounts u : Int) <
      (if isNew then cfg.NewAccountMaxRequestsPerHour else cfg.MaxRequestsPerHour)) :
    rl.Increment cfg u isNew =
      ({ rl with
          MinuteCounts := updNat rl.MinuteCounts u (rl.MinuteCounts u + 1)
          HourCounts := updNat rl.HourCounts u (rl.HourCounts u + 1) },
       true, []) := by
  unfold RateLimiter.Increment RateLimiter.IsShadowBanned
  rw [hen, hb]
  simp [not_le.mpr hm, not_le.mpr hh]

/-- Helper: the hour-ceiling deny branch of `Increment`, below the
shadow-ban threshold. -/
theorem Increment_deny_hour (cfg : RateLimitConfig) (rl : RateLimiter) (u : String)
    (isNew : Bool) (hen : cfg.Enabled = true) (hb : rl.ShadowBanned u = false)
    (hm : (rl.MinuteCounts u : Int) <
      (if isNew then cfg.NewAccountMaxRequestsPerMinute else cfg.MaxRequestsPerMinute))
    (hh : (rl.HourCounts u : Int) ≥
      (if isNew then cfg.NewAccountMaxRequestsPerHour else cfg.MaxRequestsPerHour))
    (hthr : ((rl.ExceededCounts u + 1 : Nat) : Int) < cfg.ShadowBanThreshold) :
    rl.Increment cfg u isNew =
      ({ rl with ExceededCounts := updNat rl.ExceededCounts u (rl.ExceededCounts u + 1) },
       false, []) := by
  unfold RateLimiter.Increment RateLimiter.IsShadowBanned
  rw [hen, hb]
  have hthr' : ¬ (cfg.ShadowBanThreshold ≤ (rl.ExceededCounts u : Int) + 1) := by
    push_cast at hthr
    omega
  simp [not_le.mpr hm, hh, updNat, hthr']

/-- Helper: the hour-ceiling deny branch of `Increment` that reaches the
shadow-ban threshold for a non-whitelisted user. -/
theorem Increment_deny_hour_ban (cfg : RateLimitConfig) (rl : RateLimiter) (u : String)
    (isNew : Bool) (hen : cfg.Enabled = true) (hb : rl.ShadowBanned u = false)
    (hm : (rl.MinuteCounts u : Int) <
      (if isNew then cfg.NewAccountMaxRequestsPerMinute else cfg.MaxRequestsPerMinute))
    (hh : (rl.HourCounts u : Int) ≥
      (if isNew then cfg.NewAccountMaxRequestsPerHour else cfg.MaxRequestsPerHour))
    (hthr : ((rl.ExceededCounts u + 1 : Nat) : Int) ≥ cfg.ShadowBanThreshold)
    (hw : rl.Whitelist u = false) :
    rl.Increment cfg u isNew =
      ({ rl with
          ExceededCounts := updNat rl.ExceededCounts u (rl.ExceededCounts u + 1)
          ShadowBanned := updBool rl.ShadowBanned u true },
       false, [Effect.adminShadowBanNotice u]) := by
  unfold RateLimiter.Increment RateLimiter.IsShadowBanned RateLimiter.ShadowBanUser
  rw [hen, hb]
  have hthr' : cfg.ShadowBanThreshold ≤ (rl.ExceededCounts u : Int) + 1 := by
    push_cast at hthr
    omega
  simp [not_le.mpr hm, hh, updNat, hthr', hw]

/-- Helper: `Increment` for a shadow-banned user denies without touching any
counter. -/
theorem Increment_banned (cfg : RateLimitConfig) (rl : RateLimiter) (u : String)
    (isNew : Bool) (hen : cfg.Enabled = true) (hb : rl.ShadowBanned u = true) :
    rl.Increment cfg u isNew = (rl, false, []) := by
  unfold RateLimiter.Increment RateLimiter.IsShadowBanned
  rw [hen, hb]
  simp

/-- C2, counterexample: with `maxRequestsPerHour = 3` and
`shadowBanThreshold = 2`, after the 4th `Increment` call from the empty state
the user's exceed counter is only 1 and the user is *not* in `ShadowBan`, and
the 4th call posts no admin notification — the ban and the notification
happen only on the 5th call. -/
theorem rateLimit_fourth_call_cx :
    (incrementTrace escalationCfg NewRateLimiter "U" 4).1.ShadowBanned "U" = false
    ∧ (incrementTrace escalationCfg NewRateLimiter "U" 4).1.ExceededCounts "U" = 1
    ∧ (incrementTrace escalationCfg NewRateLimiter "U" 4).2.1 = false
    ∧ (incrementTrace escalationCfg NewRateLimiter "U" 4).2.2 = []
    ∧ (incrementTrace escalationCfg NewRateLimiter "U" 5).1.ShadowBanned "U" = true := by
  decide

/-- C2, amended: with `maxRequestsPerHour = 3`, `shadowBanThreshold = 2`, a
per-minute ceiling above 3 and rate limiting enabled, for a user starting
with zero counters who is neither shadow-banned nor whitelisted, five
successive `Increment` calls within one hour yield: allow for calls 1–3;
deny for calls 4 and 5 with the exceed counter reaching 2; after the *5th*
call (not the 4th) the user is in `ShadowBan` and exactly one admin
notification has been posted (by that 5th call); and a *6th* call is
rejected because the user is shadow-banned, leaving all counters
untouched. -/
theorem rateLimit_escalation_trace (cfg : RateLimitConfig) (u : String)
    (rl0 : RateLimiter)
    (hen : cfg.Enabled = true) (hmh : cfg.MaxRequestsPerHour = 3)
    (hth : cfg.ShadowBanThreshold = 2) (hmm : (3 : Int) < cfg.MaxRequestsPerMinute)
    (h0m : rl0.MinuteCounts u = 0) (h0h : rl0.HourCounts u = 0)
    (h0e : rl0.ExceededCounts u = 0) (h0b : rl0.ShadowBanned u = false)
    (h0w : rl0.Whitelist u = false) :
    (incrementTrace cfg rl0 u 1).2.1 = true
    ∧ (incrementTrace cfg rl0 u 2).2.1 = true
    ∧ (incrementTrace cfg rl0 u 3).2.1 = true
    ∧ (incrementTrace cfg rl0 u 4).2.1 = false
    ∧ (incrementTrace cfg rl0 u 4).1.ExceededCounts u = 1
    ∧ (incrementTrace cfg rl0 u 4).1.ShadowBanned u = false
    ∧ (incrementTrace cfg rl0 u 4).2.2 = []
    ∧ (incrementTrace cfg rl0 u 5).2.1 = false
    ∧ (incrementTrace cfg rl0 u 5).1.ExceededCounts u = 2
    ∧ (incrementTrace cfg rl0 u 5).1.ShadowBanned u = true
    ∧ (incrementTrace cfg rl0 u 5).2.2 = [Effect.adminShadowBanNotice u]
    ∧ (incrementTrace cfg rl0 u 6).2.1 = false
    ∧ (incrementTrace cfg rl0 u 6).2.2 = []
    ∧ (incrementTrace cfg rl0 u 6).1.ExceededCounts u = 2 := by
  have hmN : ∀ n : Nat, n ≤ 3 → ((n : Int) <
      (if (false : Bool) then cfg.NewAccountMaxRequestsPerMinute else cfg.MaxRequestsPerMinute)) := by
    intro n hn
    simp only [Bool.false_eq_true, if_false]
    have : (n : Int) ≤ 3 := by exact_mod_cast hn
    omega
  have hhN : ∀ n : Nat, n < 3 → ((n : Int) <
      (if (false : Bool) then cfg.NewAccountMaxRequestsPerHour else cfg.MaxRequestsPerHour)) := by
    intro n hn
    simp only [Bool.false_eq_true, if_false, hmh]
    exact_mod_cast hn
  -- call 1
  have e1 : incrementTrace cfg rl0 u 1 =
      ({ rl0 with
          MinuteCounts := updNat rl0.MinuteCounts u (rl0.MinuteCounts u + 1)
          HourCounts := updNat rl0.HourCounts u (rl0.HourCounts u + 1) }, true, []) := by
    show rl0.Increment cfg u false = _
    exact Increment_allow cfg rl0 u false hen h0b
      (by rw [h0m]; exact hmN 0 (by norm_num))
      (by rw [h0h]; exact hhN 0 (by norm_num))
  have s1m : (incrementTrace cfg rl0 u 1).1.MinuteCounts u = 1 := by
    rw [e1]; simp [updNat, h0m]
  have s1h : (incrementTrace cfg rl0 u 1).1.HourCounts u = 1 := by
    rw [e1]; simp [updNat, h0h]
  have s1e : (incrementTrace cfg rl0 u 1).1.ExceededCounts u = 0 := by
    rw [e1]; simpa using h0e
  have s1b : (incrementTrace cfg rl0 u 1).1.ShadowBanned u = false := by
    rw [e1]; simpa using h0b
  have s1w : (incrementTrace cfg rl0 u 1).1.Whitelist u = false := by
    rw [e1]; simpa using h0w
  -- call 2
  have e2 : incrementTrace cfg rl0 u 2 =
      ({ (incrementTrace cfg rl0 u 1).1 with
          MinuteCounts := updNat (incrementTrace cfg rl0 u 1).1.MinuteCounts u
            ((incrementTrace cfg rl0 u 1).1.MinuteCounts u + 1)
          HourCounts := updNat (incrementTrace cfg rl0 u 1).1.HourCounts u
            ((incrementTrace cfg rl0 u 1).1.HourCounts u + 1) }, true, []) := by
    show ((incrementTrace cfg rl0 u 1).1).Increment cfg u false = _
    exact Increment_allow cfg _ u false hen s1b
      (by rw [s1m]; exact hmN 1 (by norm_num))
      (by rw [s1h]; exact hhN 1 (by norm_num))
  have s2m : (incrementTrace cfg rl0 u 2).1.MinuteCounts u = 2 := by
    rw [e2]; simp [updNat, s1m]
  have s2h : (incrementTrace cfg rl0 u 2).1.HourCounts u = 2 := by
    rw [e2]; simp [updNat, s1h]
  have s2e : (incrementTrace cfg rl0 u 2).1.ExceededCounts u = 0 := by
    rw [e2]; simpa using s1e
  have s2b : (incrementTrace cfg rl0 u 2).1.ShadowBanned u = false := by
    rw [e2]; simpa using s1b
  have s2w : (incrementTrace cfg rl0 u 2).1.Whitelist u = false := by
    rw [e2]; simpa using s1w
  -- call 3
  have e3 : incrementTrace cfg rl0 u 3 =
      ({ (incrementTrace cfg rl0 u 2).1 with
          MinuteCounts := updNat (incrementTrace cfg rl0 u 2).1.MinuteCounts u
            ((incrementTrace cfg rl0 u 2).1.MinuteCounts u + 1)
          HourCounts := updNat (incrementTrace cfg rl0 u 2).1.HourCounts u
            ((incrementTrace cfg rl0 u 2).1.HourCounts u + 1) }, true, []) := by
    show ((incrementTrace cfg rl0 u 2).1).Increment cfg u false = _
    exact Increment_allow cfg _ u false hen s2b
      (by rw [s2m]; exact hmN 2 (by norm_num))
      (by rw [s2h]; exact hhN 2 (by norm_num))
  have s3m : (incrementTrace cfg rl0 u 3).1.MinuteCounts u = 3 := by
    rw [e3]; simp [updNat, s2m]
  have s3h : (incrementTrace cfg rl0 u 3).1.HourCounts u = 3 := by
    rw [e3]; simp [updNat, s2h]
  have s3e : (incrementTrace cfg rl0 u 3).1.ExceededCounts u = 0 := by
    rw [e3]; simpa using s2e
  have s3b : (incrementTrace cfg rl0 u 3).1.ShadowBanned u = false := by
    rw [e3]; simpa using s2b
  have s3w : (incrementTrace cfg rl0 u 3).1.Whitelist u = false := by
    rw [e3]; simpa using s2w
  -- call 4: hour ceiling reached, first exceed, below threshold
  have e4 : incrementTrace cfg rl0 u 4 =
      ({ (incrementTrace cfg rl0 u 3).1 with
          ExceededCounts := updNat (incrementTrace cfg rl0 u 3).1.ExceededCounts u
            ((incrementTrace cfg rl0 u 3).1.ExceededCounts u + 1) }, false, []) := by
    show ((incrementTrace cfg rl0 u 3).1).Increment cfg u false = _
    exact Increment_deny_hour cfg _ u false hen s3b
      (by rw [s3m]; exact hmN 3 (by norm_num))
      (by rw [s3h]; simp [hmh])
      (by rw [s3e, hth]; norm_num)
  have s4m : (incrementTrace cfg rl0 u 4).1.MinuteCounts u = 3 := by
    rw [e4]; simpa using s3m
  have s4h : (incrementTrace cfg rl0 u 4).1.HourCounts u = 3 := by
    rw [e4]; simpa using s3h
  have s4e : (incrementTrace cfg rl0 u 4).1.ExceededCounts u = 1 := by
    rw [e4]; simp [updNat, s3e]
  have s4b : (incrementTrace cfg rl0 u 4).1.ShadowBanned u = false := by
    rw [e4]; simpa using s3b
  have s4w : (incrementTrace cfg rl0 u 4).1.Whitelist u = false := by
    rw [e4]; simpa using s3w
  -- call 5: hour ceiling reached, second exceed, threshold reached, ban
  have e5 : incrementTrace cfg rl0 u 5 =
      ({ (incrementTrace cfg rl0 u 4).1 with
          ExceededCounts := updNat (incrementTrace cfg rl0 u 4).1.ExceededCounts u
            ((incrementTrace cfg rl0 u 4).1.ExceededCounts u + 1)
          ShadowBanned := updBool (incrementTrace cfg rl0 u 4).1.ShadowBanned u true },
       false, [Effect.adminShadowBanNotice u]) := by
    show ((incrementTrace cfg rl0 u 4).1).Increment cfg u false = _
    exact Increment_deny_hour_ban cfg _ u false hen s4b
      (by rw [s4m]; exact hmN 3 (by norm_num))
      (by rw [s4h]; simp [hmh])
      (by rw [s4e, hth]; norm_num)
      s4w
  have s5e : (incrementTrace cfg rl0 u 5).1.ExceededCounts u = 2 := by
    rw [e5]; simp [updNat, s4e]
  have s5b : (incrementTrace cfg rl0 u 5).1.ShadowBanned u = true := by
    rw [e5]; simp [updBool]
  -- call 6: rejected because shadow-banned, state untouched
  have e6 : incrementTrace cfg rl0 u 6 = ((incrementTrace cfg rl0 u 5).1, false, []) := by
    show ((incrementTrace cfg rl0 u 5).1).Increment cfg u false = _
    exact Increment_banned cfg _ u false hen s5b
  refine ⟨by rw [e1], by rw [e2], by rw [e3], by rw [e4], s4e, s4b, by rw [e4],
    by rw [e5], s5e, s5b, by rw [e5], by rw [e6], by rw [e6], ?_⟩
  rw [e6]
  exact s5e

/-- C2, witness: the amended escalation trace on the concrete scenario
configuration from the empty state. -/
theorem rateLimit_escalation_trace_witness :
    (incrementTrace escalationCfg NewRateLimiter "U" 3).2.1 = true
    ∧ (incrementTrace escalationCfg NewRateLimiter "U" 5).1.ShadowBanned "U" = true
    ∧ (incrementTrace escalationCfg NewRateLimiter "U" 5).2.2
        = [Effect.adminShadowBanNotice "U"] := by
  have h := rateLimit_escalation_trace escalationCfg "U" NewRateLimiter
    rfl rfl rfl (by norm_num [escalationCfg]) rfl rfl rfl rfl rfl
  exact ⟨h.2.2.1, h.2.2.2.2.2.2.2.2.2.1, h.2.2.2.2.2.2.2.2.2.2.1⟩

/-- Helper: the state left by `Increment` is one of four shapes — untouched;
exceed counter bumped without a ban (which requires staying below the
threshold or being whitelisted); exceed counter bumped with a shadow-ban of a
non-whitelisted user; or both rate counters bumped (the allow branch). -/
theorem Increment_result_cases (cfg : RateLimitConfig) (rl : RateLimiter)
    (u : String) (isNew : Bool) :
    (rl.Increment cfg u isNew).1 = rl
    ∨ ((rl.Increment cfg u isNew).1 =
          { rl with ExceededCounts := updNat rl.ExceededCounts u (rl.ExceededCounts u + 1) }
        ∧ ((rl.ExceededCounts u : Int) + 1 < cfg.ShadowBanThreshold
            ∨ rl.Whitelist u = true))
    ∨ ((rl.Increment cfg u isNew).1 =
          { rl with
              ExceededCounts := updNat rl.ExceededCounts u (rl.ExceededCounts u + 1)
              ShadowBanned := updBool rl.ShadowBanned u true }
        ∧ rl.Whitelist u = false)
    ∨ (rl.Increment cfg u isNew).1 =
        { rl with
            MinuteCounts := updNat rl.MinuteCounts u (rl.MinuteCounts u + 1)
            HourCounts := updNat rl.HourCounts u (rl.HourCounts u + 1) } := by
  by_cases hen : cfg.Enabled = true
  · by_cases hb : rl.ShadowBanned u = true
    · left
      unfold RateLimiter.Increment RateLimiter.IsShadowBanned
      rw [hen, hb]
      simp
    · have hb' : rl.ShadowBanned u = false := by
        revert hb; cases rl.ShadowBanned u <;> simp
      unfold RateLimiter.Increment RateLimiter.IsShadowBanned RateLimiter.ShadowBanUser
      simp only [hen, hb', Bool.not_true, Bool.false_eq_true, if_false]
      by_cases hmin : (rl.MinuteCounts u : Int) ≥
          (if isNew then cfg.NewAccountMaxRequestsPerMinute else cfg.MaxRequestsPerMinute)
      · rw [if_pos hmin]
        by_cases hth : ((updNat rl.ExceededCounts u (rl.ExceededCounts u + 1) u : Nat) : Int)
            ≥ cfg.ShadowBanThreshold
        · rw [if_pos hth]
          by_cases hwl : rl.Whitelist u = true
          · right; left
            refine ⟨?_, Or.inr hwl⟩
            rw [if_pos hwl]
          · right; right; left
            refine ⟨?_, by simpa using hwl⟩
            rw [if_neg hwl]
        · rw [if_neg hth]
          right; left
          refine ⟨rfl, Or.inl ?_⟩
          rw [not_le] at hth
          simpa [updNat] using hth
      · rw [if_neg hmin]
        by_cases hhour : (rl.HourCounts u : Int) ≥
            (if isNew then cfg.NewAccountMaxRequestsPerHour else cfg.MaxRequestsPerHour)
        · rw [if_pos hhour]
          by_cases hth : ((updNat rl.ExceededCounts u (rl.ExceededCounts u + 1) u : Nat) : Int)
              ≥ cfg.ShadowBanThreshold
          · rw [if_pos hth]
            by_cases hwl : rl.Whitelist u = true
            · right; left
              refine ⟨?_, Or.inr hwl⟩
              rw [if_pos hwl]
            · right; right; left
              refine ⟨?_, by simpa using hwl⟩
              rw [if_neg hwl]
          · rw [if_neg hth]
            right; left
            refine ⟨rfl, Or.inl ?_⟩
            rw [not_le] at hth
            simpa [updNat] using hth
        · rw [if_neg hhour]
          right; right; right
          rfl
  · left
    have hen' : cfg.Enabled = false := by
      revert hen; cases cfg.Enabled <;> simp
    unfold RateLimiter.Increment
    rw [hen']
    simp

/-- Helper: every rate-limiter operation preserves the shadow-ban
invariant. -/
theorem RLInv_applyOp (cfg : RateLimitConfig) (hthr : 0 ≤ cfg.ShadowBanThreshold)
    (rl : RateLimiter) (hinv : RLInv cfg rl) (op : RLOp) :
    RLInv cfg (rl.applyOp cfg op) := by
  cases op with
  | resetMinuteCounts =>
    intro v hv
    exact hinv v hv
  | resetHourCounts =>
    intro v hv
    exfalso
    simp only [RateLimiter.applyOp, RateLimiter.ResetHourCounts, Nat.cast_zero] at hv
    omega
  | unbanAndWhitelistUser w =>
    intro v hv
    by_cases hvw : v = w
    · subst hvw
      right
      simp [RateLimiter.applyOp, RateLimiter.UnbanAndWhitelistUser, updBool]
    · have hv' : cfg.ShadowBanThreshold < (rl.ExceededCounts v : Int) := by
        simpa [RateLimiter.applyOp, RateLimiter.UnbanAndWhitelistUser] using hv
      rcases hinv v hv' with h | h
      · left
        simpa [RateLimiter.applyOp, RateLimiter.UnbanAndWhitelistUser, updBool, hvw] using h
      · right
        simpa [RateLimiter.applyOp, RateLimiter.UnbanAndWhitelistUser, updBool, hvw] using h
  | increment w isNew =>
    simp only [RateLimiter.applyOp]
    rcases Increment_result_cases cfg rl w isNew with h | ⟨h, hside⟩ | ⟨h, _⟩ | h
    · rw [h]; exact hinv
    · rw [h]
      intro v hv
      by_cases hvw : v = w
      · subst hvw
        rcases hside with hlt | hwl
        · exfalso
          have : cfg.ShadowBanThreshold < ((rl.ExceededCounts v + 1 : Nat) : Int) := by
            simpa [updNat] using hv
          push_cast at this
          omega
        · right; exact hwl
      · exact hinv v (by simpa [updNat, hvw] using hv)
    · rw [h]
      intro v hv
      by_cases hvw : v = w
      · subst hvw
        left
        simp [updBool]
      · rcases hinv v (by simpa [updNat, hvw] using hv) with hban | hwl
        · left; simpa [updBool, hvw] using hban
        · right; exact hwl
    · rw [h]
      intro v hv
      exact hinv v hv

/-- Helper: no rate-limiter operation adds a whitelisted user to the
shadow-ban set. -/
theorem applyOp_whitelist_not_banned (cfg : RateLimitConfig) (rl : RateLimiter)
    (op : RLOp) (u : String) (hw : rl.Whitelist u = true)
    (hb : (rl.applyOp cfg op).ShadowBanned u = true) :
    rl.ShadowBanned u = true := by
  cases op with
  | resetMinuteCounts => exact hb
  | resetHourCounts => exact hb
  | unbanAndWhitelistUser w =>
    by_cases huw : u = w
    · subst huw
      exfalso
      simp [RateLimiter.applyOp, RateLimiter.UnbanAndWhitelistUser, updBool] at hb
    · simpa [RateLimiter.applyOp, RateLimiter.UnbanAndWhitelistUser, updBool, huw] using hb
  | increment w isNew =>
    simp only [RateLimiter.applyOp] at hb
    rcases Increment_result_cases cfg rl w isNew with h | ⟨h, _⟩ | ⟨h, hwl⟩ | h
    · rw [h] at hb; exact hb
    · rw [h] at hb; exact hb
    · rw [h] at hb
      by_cases huw : u = w
      · subst huw
        exact absurd hw (by simp [hwl])
      · simpa [updBool, huw] using hb
    · rw [h] at hb; exact hb

/-- C3: in every state reachable from the empty rate-limiter state by any
sequence of `Increment`, `ResetMinuteCounts`, `ResetHourCounts` and
`UnbanAndWhitelistUser` operations, a user's exceed counter exceeds the
shadow-ban threshold only if the user is shadow-banned or whitelisted; and no
operation (from any state) adds a whitelisted user to the shadow-ban set. -/
theorem rateLimiter_shadowban_invariant (cfg : RateLimitConfig)
    (hthr : 0 ≤ cfg.ShadowBanThreshold) :
    (∀ ops : List RLOp, RLInv cfg (NewRateLimiter.runOps cfg ops))
    ∧ (∀ (rl : RateLimiter) (op : RLOp) (u : String),
        rl.Whitelist u = true → (rl.applyOp cfg op).ShadowBanned u = true →
        rl.ShadowBanned u = true) := by
  constructor
  · have hrun : ∀ (ops : List RLOp) (rl : RateLimiter), RLInv cfg rl →
        RLInv cfg (rl.runOps cfg ops) := by
      intro ops
      induction ops with
      | nil => intro rl h; exact h
      | cons op rest ih =>
        intro rl h
        exact ih _ (RLInv_applyOp cfg hthr rl h op)
    intro ops
    refine hrun ops NewRateLimiter ?_
    intro v hv
    exfalso
    simp only [NewRateLimiter, Nat.cast_zero] at hv
    omega
  · exact fun rl op u hw hb => applyOp_whitelist_not_banned cfg rl op u hw hb

/-- C3, witness: the invariant on a concrete reachable state (three
increments then an hour reset under the scenario configuration). -/
theorem rateLimiter_shadowban_invariant_witness :
    RLInv escalationCfg (NewRateLimiter.runOps escalationCfg
      [RLOp.increment "U" false, RLOp.increment "U" false,
       RLOp.increment "U" false, RLOp.resetHourCounts]) :=
  (rateLimiter_shadowban_invariant escalationCfg (by decide)).1
    [RLOp.increment "U" false, RLOp.increment "U" false,
     RLOp.increment "U" false, RLOp.resetHourCounts]

/-- Helper: `ValidateAPIKey` succeeds only with the key data stored under
that key. -/
theorem ValidateAPIKey_some (store : String → Option APIKey) (key : String)
    (clk : APIClock) (k : APIKey) (hval : ValidateAPIKey store key clk = some k) :
    store key = some k := by
  unfold ValidateAPIKey at hval
  cases hs : store key with
  | none => rw [hs] at hval; exact absurd hval (by simp)
  | some a =>
    rw [hs] at hval
    dsimp only at hval
    by_cases ha : a.active = true
    · rw [ha] at hval
      simp only [Bool.not_true, Bool.false_eq_true, if_false] at hval
      by_cases he : clk.now > a.expiresAt
      · rw [if_pos he] at hval
        exact absurd hval (by simp)
      · rw [if_neg he] at hval
        exact hval
    · have ha' : a.active = false := by revert ha; cases a.active <;> simp
      rw [ha'] at hval
      simp only [Bool.not_false, if_pos] at hval
      exact absurd hval (by simp)

/-- Helper: reading an updated key back from the store. -/
theorem updKey_same (store : String → Option APIKey) (k : String) (v : APIKey) :
    updKey store k v k = some v := by
  simp [updKey]

/-- Helper: a successful `CheckAndIncrementUsage` stores back the key data
with the (month-normalized) usage counter incremented by one. -/
theorem CheckAndIncrementUsage_success (store : String → Option APIKey)
    (key : String) (monthlyLimit : Int) (clk : APIClock) (k : APIKey)
    (hs : store key = some k)
    (hq : (CheckAndIncrementUsage store key monthlyLimit clk).2 = true) :
    ∃ k', (CheckAndIncrementUsage store key monthlyLimit clk).1 key = some k'
      ∧ k'.usageMonth =
          (if clk.month ≠ k.lastResetMonth ∨ clk.year ≠ k.lastResetYear then 0
           else k.usageMonth) + 1 := by
  simp only [CheckAndIncrementUsage, hs] at hq ⊢
  by_cases hmc : clk.month ≠ k.lastResetMonth ∨ clk.year ≠ k.lastResetYear
  · rw [if_pos hmc] at hq ⊢
    split at hq
    · exact absurd hq (by simp)
    · rename_i hlim
      rw [if_neg hlim]
      exact ⟨_, updKey_same _ _ _, by rw [if_pos hmc]⟩
  · rw [if_neg hmc] at hq ⊢
    split at hq
    · exact absurd hq (by simp)
    · rename_i hlim
      rw [if_neg hlim]
      exact ⟨_, updKey_same _ _ _, by rw [if_neg hmc]⟩

/-- C10: the alt-text endpoint increments the key's monthly usage counter
before the request body is examined: for every request on a valid, unexpired,
within-quota key, the store left behind is exactly the post-increment store
— whatever the body and downstream processing do (400 on parse/field/format
failures, 503 on queue admission timeout, 504 on processing timeout, 500, or
success) — and that store carries the key with its month-normalized usage
counter incremented by one. -/
theorem handleAltText_usage_before_parse (store : String → Option APIKey)
    (monthlyLimit : Int) (clk : APIClock) (authHeader : String) (k : APIKey)
    (hkey : extractAPIKey authHeader ≠ "")
    (hval : ValidateAPIKey store (extractAPIKey authHeader) clk = some k)
    (hquota : (CheckAndIncrementUsage store (extractAPIKey authHeader)
        monthlyLimit clk).2 = true) :
    (∀ body : AltTextRequestBody,
      (APIServer.handleAltText store monthlyLimit clk "POST" authHeader body).2
        = (CheckAndIncrementUsage store (extractAPIKey authHeader) monthlyLimit clk).1)
    ∧ ∃ k', (CheckAndIncrementUsage store (extractAPIKey authHeader)
          monthlyLimit clk).1 (extractAPIKey authHeader) = some k'
        ∧ k'.usageMonth =
            (if clk.month ≠ k.lastResetMonth ∨ clk.year ≠ k.lastResetYear then 0
             else k.usageMonth) + 1 := by
  constructor
  · intro body
    obtain ⟨pf, imf, rok, fn, ct, lang, qa, pr⟩ := body
    unfold APIServer.handleAltText
    rw [if_neg (show ¬(("POST" : String) ≠ "POST") by simp)]
    dsimp only
    rw [if_neg hkey, hval]
    dsimp only
    rw [hquota]
    simp only [Bool.not_true, Bool.false_eq_true, if_false]
    cases pf <;> cases imf <;> cases rok <;> cases qa <;>
      rcases pr with _ | (_ | t) <;>
        by_cases hf : getImageFormat fn ct = "" <;>
          simp [hf]
  · exact CheckAndIncrementUsage_success store (extractAPIKey authHeader)
      monthlyLimit clk k (ValidateAPIKey_some store (extractAPIKey authHeader) clk k hval)
      hquota

/-- A one-key store for the C10 witness: an active key `"altbot_k"` with
seven uses this month, expiring at time 1000. -/
def apiStore1 : String → Option APIKey :=
  fun s => if s = "altbot_k" then
      some { key := "altbot_k", email := "e@x", usageMonth := 7, lastResetMonth := 4,
             lastResetYear := 2025, active := true, expiresAt := 1000 }
    else none

/-- The clock used by the C10 witness: within the key's validity and in the
same month as its last reset. -/
def apiClock1 : APIClock := { now := 500, month := 4, year := 2025 }

/-- C10, witness: on the concrete one-key store with monthly limit 100, the
handler leaves the incremented store behind for a request that fails
multipart parsing (a 400), and the key's usage rose from 7 to 8. -/
theorem handleAltText_usage_before_parse_witness :
    (APIServer.handleAltText apiStore1 100 apiClock1 "POST" "Bearer altbot_k"
        { parseFormOk := false, imageFieldOk := false, readOk := false,
          filename := "", contentType := "", language := "", queueAdmitted := false,
          procResult := none }).2
      = (CheckAndIncrementUsage apiStore1 "altbot_k" 100 apiClock1).1
    ∧ ∃ k', (CheckAndIncrementUsage apiStore1 "altbot_k" 100 apiClock1).1 "altbot_k"
          = some k' ∧ k'.usageMonth = 8 := by
  have hext : extractAPIKey "Bearer altbot_k" = "altbot_k" := by decide
  have h := handleAltText_usage_before_parse apiStore1 100 apiClock1
    "Bearer altbot_k"
    { key := "altbot_k", email := "e@x", usageMonth := 7, lastResetMonth := 4,
      lastResetYear := 2025, active := true, expiresAt := 1000 }
    (by rw [hext]; decide) (by rw [hext]; decide) (by rw [hext]; decide)
  rw [hext] at h
  refine ⟨h.1 _, ?_⟩
  obtain ⟨k', hk', hu⟩ := h.2
  exact ⟨k', hk', by simpa using hu⟩

end Altbot
